import Mathlib

/-!
Verification of the NAP-audit core (`nap.py`): a shallow embedding of the
business-name similarity scorer (`calculate_similarity_score`, including the
`difflib.SequenceMatcher` ratio it calls), the Google-Places candidate
selector (`search_google_place`), the normalizers
(`normalize_phone_number`, `normalize_address`) and the reconciler
(`determine_match_status`).  Strings are modelled as `String` / `List Char`
(ASCII), Python floats as `ℚ`, fallible values as `Option`/`Except`.
-/

/-- Python `\s` (ASCII whitespace as matched by `str.split`, `str.strip`). -/
def isPySpace (c : Char) : Bool :=
  c == ' ' || c == '\t' || c == '\n' || c == '\r' || c == '\x0b' || c == '\x0c'

/-- ASCII lowering, modelling Python `str.lower` on ASCII input. -/
def asciiLower (c : Char) : Char :=
  if 'A' ≤ c && c ≤ 'Z' then Char.ofNat (c.toNat + 32) else c

/-- Python `s.lower()` on the character list. -/
def pyLower (s : List Char) : List Char := s.map asciiLower

/-- Strip characters satisfying `p` from both ends (Python `strip`). -/
def stripChars (p : Char → Bool) (s : List Char) : List Char :=
  ((s.dropWhile p).reverse.dropWhile p).reverse

/-- Python `s.strip()` (whitespace strip). -/
def pyStrip (s : List Char) : List Char := stripChars isPySpace s

/-- Does `n` occur at the start of `h`?  (Helper for the substring check.) -/
def listStartsWith : List Char → List Char → Bool
  | [], _ => true
  | _ :: _, [] => false
  | c :: cs, d :: ds => c == d && listStartsWith cs ds

/-- Python's substring test `n in h` on character lists. -/
def pyIn : List Char → List Char → Bool
  | n, [] => n.isEmpty
  | n, d :: ds => listStartsWith n (d :: ds) || pyIn n ds

/-- Python's substring test on `String`s. -/
def pyInS (n h : String) : Bool := pyIn n.toList h.toList

/-- Accumulator-based worker for Python `str.split()` (split on whitespace
runs, dropping empty chunks); `acc` is the current word, reversed. -/
def splitAux : List Char → List Char → List (List Char)
  | [], acc => if acc = [] then [] else [acc.reverse]
  | c :: rest, acc =>
    if isPySpace c then
      if acc = [] then splitAux rest [] else acc.reverse :: splitAux rest []
    else splitAux rest (c :: acc)

/-- Python `s.split()`. -/
def pySplitWs (s : List Char) : List (List Char) := splitAux s []

/-- Python `' '.join(s.split())` — collapse whitespace runs and trim. -/
def cleanupSpaces (s : List Char) : List Char :=
  List.intercalate [' '] (pySplitWs s)

/-- Fueled worker for Python `str.replace` (all non-overlapping occurrences,
left to right).  One fuel unit per examined position; callers pass
`s.length`, which always suffices because every step consumes at least one
character of `s`. -/
def replAux (pat repl : List Char) : Nat → List Char → List Char
  | 0, s => s
  | _ + 1, [] => []
  | fuel + 1, c :: rest =>
    if pat.isPrefixOf (c :: rest) then
      repl ++ replAux pat repl fuel (rest.drop (pat.length - 1))
    else c :: replAux pat repl fuel rest

/-- Python `s.replace(pat, repl)`.  All call sites in the source pass a
non-empty pattern, so the empty-pattern case never arises. -/
def pyReplace (s pat repl : List Char) : List Char :=
  if pat = [] then s else replAux pat repl s.length s

/-- Python `\w` (ASCII word character). -/
def isWordChar (c : Char) : Bool := c.isAlphanum || c == '_'

/-- Word-ness of an optional character: out-of-string counts as non-word. -/
def optWord : Option Char → Bool
  | none => false
  | some c => isWordChar c

/-- A regex `\b` boundary sits between two positions of differing word-ness. -/
def wordBoundary (a b : Option Char) : Bool := optWord a != optWord b

/-- Fueled worker for `re.sub(r'\b<pat>\b', ' ', s)`: replace each
word-boundary-delimited occurrence of `pat` by a single space, scanning left
to right.  `prev` is the character just before the current position in the
original string. -/
def wordSubAux (pat : List Char) : Nat → Option Char → List Char → List Char
  | 0, _, s => s
  | _ + 1, _, [] => []
  | fuel + 1, prev, c :: rest =>
    if pat.isPrefixOf (c :: rest)
        && wordBoundary prev (some c)
        && wordBoundary (pat.getLastD c) (((c :: rest).drop pat.length).head?) then
      ' ' :: wordSubAux pat fuel (some (pat.getLastD c)) ((c :: rest).drop pat.length)
    else c :: wordSubAux pat fuel (some c) rest

/-- `re.sub(r'\b' + pat + r'\b', ' ', s)` as used for the stop-word list. -/
def reSubWord (pat : List Char) (s : List Char) : List Char :=
  if pat = [] then s else wordSubAux pat s.length none s

/-- Length of the common prefix of two character lists. -/
def commonLen : List Char → List Char → Nat
  | a :: as, b :: bs => if a = b then commonLen as bs + 1 else 0
  | _, _ => 0

/-- `difflib.SequenceMatcher.find_longest_match` (no junk, short strings):
the longest matching block `(i, j, k)` with `a[i:i+k] == b[j:j+k]`,
maximising `k`, then taking the smallest `i`, then the smallest `j`;
`(0, 0, 0)` when there is no non-empty match. -/
def findBest (a b : List Char) : Nat × Nat × Nat :=
  (List.range a.length).foldl
    (fun acc i =>
      (List.range b.length).foldl
        (fun acc j =>
          let k := commonLen (a.drop i) (b.drop j)
          if acc.2.2 < k then (i, j, k) else acc)
        acc)
    (0, 0, 0)

/-- Fueled total count of matched characters in
`difflib.SequenceMatcher.get_matching_blocks`: recursively take the longest
matching block and recurse on the pieces to its left and right.  Each
recursion strictly shrinks `a.length + b.length`, so the fuel passed by
`difflibMatches` always suffices. -/
def matchesAux : Nat → List Char → List Char → Nat
  | 0, _, _ => 0
  | fuel + 1, a, b =>
    let t := findBest a b
    if t.2.2 = 0 then 0
    else
      matchesAux fuel (a.take t.1) (b.take t.2.1) + t.2.2 +
        matchesAux fuel (a.drop (t.1 + t.2.2)) (b.drop (t.2.1 + t.2.2))

/-- Total matched characters between `a` and `b`, difflib style. -/
def difflibMatches (a b : List Char) : Nat :=
  matchesAux (a.length + b.length + 1) a b

/-- `difflib.SequenceMatcher(None, a, b).ratio() = 2*M/(len(a)+len(b))`. -/
def seqSim (a b : List Char) : ℚ :=
  2 * (difflibMatches a b : ℚ) / ((a.length : ℚ) + (b.length : ℚ))

/-- `'360 painting'`. -/
def pat360 : List Char := "360 painting".toList

/-- `'home helpers'`. -/
def patHH : List Char := "home helpers".toList

/-- The franchise boilerplate terms stripped in the Home Helpers branch. -/
def franchiseTerms : List (List Char) :=
  ["home helpers", "homecare", "home care", "of", "and", "-", "&"].map String.toList

/-- The stop-word list of the generic branch. -/
def stopWords : List (List Char) :=
  ["of", "the", "and", "&", "-", "inc", "llc", "corp", "corporation",
    "company", "co", "ltd"].map String.toList

/-- The 360-Painting branch cleaning: drop every character outside
`[a-z0-9\s]`, then collapse whitespace. -/
def clean360 (s : List Char) : List Char :=
  cleanupSpaces (s.filter (fun c => ('a' ≤ c && c ≤ 'z') || c.isDigit || isPySpace c))

/-- The Home Helpers branch cleaning: `str.replace` each franchise term by a
space, then collapse whitespace. -/
def hhClean (s : List Char) : List Char :=
  cleanupSpaces (franchiseTerms.foldl (fun acc t => pyReplace acc t [' ']) s)

/-- The generic branch cleaning: whole-word-delete each stop word, then
collapse whitespace. -/
def genericClean (s : List Char) : List Char :=
  cleanupSpaces (stopWords.foldl (fun acc w => reSubWord w acc) s)

/-- The word set of a cleaned name (Python `set(clean.split())`). -/
def wordsOf (s : List Char) : List (List Char) := (pySplitWs s).dedup

/-- Words longer than 2 characters (the "qualifying" words). -/
def bigWords (s : List Char) : List (List Char) :=
  (wordsOf s).filter (fun w => 2 < w.length)

/-- Lines 352–378 of `nap.py`: the containment shortcut, the Jaccard word
overlap of words longer than 2 characters, the sequence ratio, and the
0.6/0.4 weighted blend.  Runs on the already-cleaned names. -/
def simTail (c1 c2 : List Char) : ℚ :=
  if pyIn c1 c2 || pyIn c2 c1 then 9/10
  else
    let words1 := bigWords c1
    let words2 := bigWords c2
    let wordScore : ℚ :=
      if words1 ≠ [] ∧ words2 ≠ [] then
        let inter := (words1.filter (fun w => w ∈ words2)).length
        let uni := (words1 ++ words2.filter (fun w => w ∉ words1)).length
        if 0 < uni then (inter : ℚ) / (uni : ℚ) else 0
      else 0
    wordScore * (6/10) + seqSim c1 c2 * (4/10)

/-- The branch structure of `calculate_similarity_score` after the empty-name
guard, on the lowered and stripped names. -/
def calcSimCore (n1 n2 : List Char) : ℚ :=
  if pyIn pat360 n1 || pyIn pat360 n2 then
    simTail (clean360 n1) (clean360 n2)
  else if pyIn patHH n1 && pyIn patHH n2 then
    let c1 := hhClean n1
    let c2 := hhClean n2
    let w1 := wordsOf c1
    let w2 := wordsOf c2
    let common := w1.filter (fun w => w ∈ w2)
    if common = [] then simTail c1 c2
    else if (pySplitWs n1).any (fun w => pyIn w n2) then 9/10
    else if (common.filter (fun w => 2 < w.length)) ≠ [] then 8/10
    else simTail c1 c2
  else simTail (genericClean n1) (genericClean n2)

/-- `NAPAuditor.calculate_similarity_score` (nap.py, lines 284–378). -/
def calculate_similarity_score (name1 name2 : String) : ℚ :=
  if name1 = "" ∨ name2 = "" then 0
  else calcSimCore (pyStrip (pyLower name1.toList)) (pyStrip (pyLower name2.toList))

/-- One Places API result, with the fields `search_google_place` reads.
`displayName` models `place.get('displayName', {}).get('text', default)`
(`none` when the key or its text is absent); the other fields model
`place.get(key, '')`, where a missing key and `''` behave identically. -/
structure Place where
  displayName : Option String
  formattedAddress : String
  shortFormattedAddress : String
  nationalPhoneNumber : String
  internationalPhoneNumber : String
  websiteUri : String
deriving DecidableEq

/-- Python `a or b` on strings (`''` is falsy). -/
def pyOrS (a b : String) : String := if a = "" then b else a

/-- `place.get('formattedAddress', '') or place.get('shortFormattedAddress', '')`. -/
def placeAddress (p : Place) : String :=
  pyOrS p.formattedAddress p.shortFormattedAddress

/-- Per-candidate score of `search_google_place` (nap.py lines 109–118):
the name-similarity score plus the MidMO region-hint adjustments. -/
def adjScore (business_name : String) (p : Place) : ℚ :=
  let score := calculate_similarity_score business_name (p.displayName.getD "")
  if pyInS "MidMO" business_name && pyInS "MO" (placeAddress p) then score + 3/10
  else if pyInS "MidMO" business_name && pyInS "OH" (placeAddress p) then score - 1/2
  else score

/-- The best-match loop of `search_google_place` (lines 106–122): running
`(best_match, best_score)` state, updated only on a strictly greater score. -/
def bestLoop (q : String) : Option Place → ℚ → List Place → Option Place × ℚ
  | bm, bs, [] => (bm, bs)
  | bm, bs, p :: rest =>
    if bs < adjScore q p then bestLoop q (some p) (adjScore q p) rest
    else bestLoop q bm bs rest

/-- The tagged result dictionary of `search_google_place`. -/
inductive SearchOutcome where
  | matched (name address phone website : String)
  | noMatch (closest_match_name : String)
  | noResults
  | searchError (error_message : String)
deriving DecidableEq

/-- Lines 105–151 of `search_google_place`: selection over a returned
candidate list. -/
def selectPlace (business_name : String) (places : List Place) : SearchOutcome :=
  if 0 < places.length then
    match bestLoop business_name none 0 places with
    | (some p, bs) =>
      if 7/10 ≤ bs then
        SearchOutcome.matched (p.displayName.getD "") (placeAddress p)
          (pyOrS p.nationalPhoneNumber p.internationalPhoneNumber) p.websiteUri
      else SearchOutcome.noMatch (p.displayName.getD "No close match found")
    | (none, _) => SearchOutcome.noMatch "None"
  else SearchOutcome.noResults

/-- `NAPAuditor.search_google_place` over an abstract transport result:
any exception inside the `try` block is the `error` outcome, a response
without places is `no_results`, otherwise the selection runs. -/
def searchGooglePlace (business_name : String) (response : Except String (List Place)) :
    SearchOutcome :=
  match response with
  | Except.error e => SearchOutcome.searchError e
  | Except.ok places => selectPlace business_name places

/-- `re.sub(r'\D', '', s)` — keep only the digits. -/
def stripNonDigits (s : String) : String :=
  String.mk (s.toList.filter (fun c => c.isDigit))

/-- `NAPAuditor.normalize_phone_number` (nap.py lines 612–627): `None` for a
falsy input, `'+1' + digits` when exactly 10 digits remain, and otherwise
the original string unchanged. -/
def normalize_phone_number (s : String) : Option String :=
  if s = "" then none
  else if (stripNonDigits s).length = 10 then some ("+1" ++ stripNonDigits s)
  else some s

/-- Collapse every run of two or more `p`-characters into the single
character `r`, leaving isolated `p`-characters alone — the effect of
`re.sub(p + '{2,}', r, s)`.  Adjacent characters land in one `groupBy`
group exactly when both satisfy `p`, so the length-≥-2 groups are exactly
the maximal `p`-runs of length ≥ 2. -/
def collapseRuns (p : Char → Bool) (r : Char) (s : List Char) : List Char :=
  (s.splitBy (fun a b => p a && p b)).map (fun g => if 2 ≤ g.length then [r] else g) |>.flatten

/-- `NAPAuditor.normalize_address` (nap.py lines 629–645): `None` for a falsy
input, else collapse whitespace runs, strip spaces, strip commas, strip
spaces again, and collapse comma runs. -/
def normalize_address (s : String) : Option String :=
  if s = "" then none
  else some (String.mk (collapseRuns (fun c => c == ',') ','
    (pyStrip (stripChars (fun c => c == ',') (pyStrip (collapseRuns isPySpace ' ' s.toList))))))

/-- The schema.org sub-record scraped from a website. -/
structure SchemaData where
  name : String
  address : String
  phone : String
  formatting_error : String
deriving DecidableEq

/-- The website-scrape record consumed by `determine_match_status`. -/
structure WebsiteData where
  name : String
  address : String
  phone : String
  schema : SchemaData
deriving DecidableEq

/-- The Yext record consumed by `determine_match_status`. -/
structure YextData where
  name : String
  address : String
  phone : String
deriving DecidableEq

/-- The GBP search record consumed by `determine_match_status`. -/
structure GbpData where
  status : String
  name : String
  address : String
  phone : String
  closest_match_name : Option String
deriving DecidableEq

/-- The `missing_address` sentinel list (nap.py line 680). -/
def missing_address : List String :=
  ["Not available (no GBP website found)", "Website scraping failed",
    "Not available (no match)", "Not available", ""]

/-- The `missing_phone` sentinel list (nap.py line 681). -/
def missing_phone : List String :=
  ["Not available (no GBP website found)", "Website scraping failed",
    "Not available (no match)", "Not available", ""]

/-- Python `v in sentinels` where `v` is `None` or a string: `None` is never
a member of a list of strings. -/
def optInList (v : Option String) (l : List String) : Bool :=
  match v with
  | none => false
  | some s => l.contains s

/-- Python truthiness of a `None`-or-string value. -/
def optTruthy (v : Option String) : Bool :=
  match v with
  | none => false
  | some s => s ≠ ""

/-- Interpolating a `None`-or-string value into an f-string. -/
def optStr (v : Option String) : String :=
  match v with
  | none => "None"
  | some s => s

/-- One address/phone comparison block of `determine_match_status`: a missing
other-source value records a Missing issue, a disagreeing pair of truthy
values records a Mismatch issue. -/
def fieldCheck (sentinels : List String) (issueLabel missingAction mismatchAction : String)
    (refVal otherVal : Option String) : List String × List String :=
  if optInList otherVal sentinels then ([issueLabel], [missingAction])
  else if optTruthy refVal && optTruthy otherVal && refVal ≠ otherVal then
    ([issueLabel], [mismatchAction])
  else ([], [])

/-- The schema formatting-error check (nap.py lines 701–703). -/
def schemaFormatCheck (fe : String) : List String × List String :=
  if ¬ fe ∈ ["Not available (no GBP website found)", "Website scraping failed", "Not available"]
      ∧ fe ≠ "" then
    (["Fix Schema Formatting"], ["Fix schema.org formatting errors: " ++ fe])
  else ([], [])

/-- Pointwise concatenation of `(issues, actions)` pairs, modelling the
sequential `issues.append` / `actions.append` calls. -/
def catP (a b : List String × List String) : List String × List String :=
  (a.1 ++ b.1, a.2 ++ b.2)

/-- The website-source checks of `determine_match_status` (lines 684–717). -/
def websiteChecks (ga gp : Option String) (w : Option WebsiteData) :
    List String × List String :=
  match w with
  | none => ([], [])
  | some wd =>
    let wa := normalize_address wd.address
    let wp := normalize_phone_number wd.phone
    let sa := normalize_address wd.schema.address
    let sp := normalize_phone_number wd.schema.phone
    catP (catP
      (fieldCheck missing_address "Update Website Address"
        ("Website Address Missing - GBP: '" ++ optStr ga ++ "'")
        ("Address Mismatch - GBP: '" ++ optStr ga ++ "' vs Website: '" ++ optStr wa ++ "'")
        ga wa)
      (fieldCheck missing_phone "Update Website Phone"
        ("Website Phone Missing - GBP: '" ++ optStr gp ++ "'")
        ("Phone Mismatch - GBP: '" ++ optStr gp ++ "' vs Website: '" ++ optStr wp ++ "'")
        gp wp))
    (catP (schemaFormatCheck wd.schema.formatting_error)
      (catP
        (fieldCheck missing_address "Update Schema Address"
          ("Schema Address Missing - GBP: '" ++ optStr ga ++ "'")
          ("Schema Address Mismatch - GBP: '" ++ optStr ga ++ "' vs Schema: '" ++ optStr sa ++ "'")
          ga sa)
        (fieldCheck missing_phone "Update Schema Phone"
          ("Schema Phone Missing - GBP: '" ++ optStr gp ++ "'")
          ("Schema Phone Mismatch - GBP: '" ++ optStr gp ++ "' vs Schema: '" ++ optStr sp ++ "'")
          gp sp)))

/-- The Yext-source checks of `determine_match_status` (lines 720–733). -/
def yextChecks (ga gp : Option String) (y : Option YextData) :
    List String × List String :=
  match y with
  | none => ([], [])
  | some yd =>
    let ya := normalize_address yd.address
    let yp := normalize_phone_number yd.phone
    catP
      (fieldCheck missing_address "Update Yext Address"
        ("Yext Address Missing - GBP: '" ++ optStr ga ++ "'")
        ("Yext Address Mismatch - GBP: '" ++ optStr ga ++ "' vs Yext: '" ++ optStr ya ++ "'")
        ga ya)
      (fieldCheck missing_phone "Update Yext Phone"
        ("Yext Phone Missing - GBP: '" ++ optStr gp ++ "'")
        ("Yext Phone Mismatch - GBP: '" ++ optStr gp ++ "' vs Yext: '" ++ optStr yp ++ "'")
        gp yp)

/-- The `(issues, actions)` lists accumulated by the comparison phase of
`determine_match_status`, in source order. -/
def computeIssues (g : GbpData) (w : Option WebsiteData) (y : Option YextData) :
    List String × List String :=
  catP (websiteChecks (normalize_address g.address) (normalize_phone_number g.phone) w)
    (yextChecks (normalize_address g.address) (normalize_phone_number g.phone) y)

/-- The statuses that short-circuit `determine_match_status` (line 653). -/
def shortCircuitStatuses : List String := ["no_match", "no_results", "error"]

/-- Python `sep.join(list)`. -/
def pyJoin (sep : String) : List String → String
  | [] => ""
  | [x] => x
  | x :: y :: rest => x ++ sep ++ pyJoin sep (y :: rest)

/-- Python `sorted(list(set(l)))` for a list of strings: the distinct
elements in increasing lexicographic order. -/
def sortedDedup (l : List String) : List String :=
  List.insertionSort (fun a b => a ≤ b) l.dedup

/-- `NAPAuditor.determine_match_status` (nap.py lines 647–741), returning
the `(match_status, action_needed)` pair. -/
def determine_match_status (g : GbpData) (w : Option WebsiteData) (y : Option YextData) :
    String × String :=
  if g.status ∈ shortCircuitStatuses then
    ("No GBP Match",
      if g.status = "no_results" then
        "No results returned from Places API for this search query."
      else if g.status = "no_match" ∧ optTruthy g.closest_match_name = true then
        "There was no close match to a GBP entry, the closest match was '" ++
          optStr g.closest_match_name ++ "'."
      else "Manual review required: No close Google Business Profile match found.")
  else if (computeIssues g w y).1 = [] then
    ("All Good", "All NAP information is consistent.")
  else
    (pyJoin " / " (sortedDedup (computeIssues g w y).1),
      pyJoin " | " (sortedDedup (computeIssues g w y).2))

/-- Places used by the witnesses below. -/
def placeAbc : Place := Place.mk (some "abc") "" "" "" "" ""

/-- A candidate whose display name is present but empty. -/
def placeBlank : Place := Place.mk (some "") "" "" "" "" ""

/-- `Matched` post-condition of the candidate selector: the returned fields
come from a candidate that scores at least 0.70 after adjustments, is
maximal among all candidates, and is the earliest candidate attaining that
maximum (first wins on ties). -/
def isFirstBest (q : String) (ps : List Place) (n a ph w : String) : Prop :=
  ∃ i, ∃ hi : i < ps.length,
    7/10 ≤ adjScore q (ps.get ⟨i, hi⟩) ∧
    (∀ p ∈ ps, adjScore q p ≤ adjScore q (ps.get ⟨i, hi⟩)) ∧
    (∀ j, ∀ hj : j < i, adjScore q (ps.get ⟨j, Nat.lt_trans hj hi⟩) < adjScore q (ps.get ⟨i, hi⟩)) ∧
    n = (ps.get ⟨i, hi⟩).displayName.getD "" ∧
    a = placeAddress (ps.get ⟨i, hi⟩) ∧
    ph = pyOrS (ps.get ⟨i, hi⟩).nationalPhoneNumber (ps.get ⟨i, hi⟩).internationalPhoneNumber ∧
    w = (ps.get ⟨i, hi⟩).websiteUri

/-- Neither name triggers a franchise-specific branch of the scorer: no
`'360 painting'` pattern in either lowered name, and not both names contain
`'home helpers'`. -/
def onGenericPath (a b : String) : Bool :=
  !(pyIn pat360 (pyStrip (pyLower a.toList)) || pyIn pat360 (pyStrip (pyLower b.toList))) &&
  !(pyIn patHH (pyStrip (pyLower a.toList)) && pyIn patHH (pyStrip (pyLower b.toList)))

/-- A matched GBP record used by the reconciler examples. -/
def gbpRef : GbpData := GbpData.mk "match" "Biz" "1 Main St" "5551234567" none

/-- A website record whose scrape found no address at all (empty string). -/
def websiteNoAddr : WebsiteData :=
  WebsiteData.mk "Biz" "" "5551234567" (SchemaData.mk "Biz" "1 Main St" "5551234567" "")

/-- A website record whose address is the `'Not available'` sentinel. -/
def websiteSentinel : WebsiteData :=
  WebsiteData.mk "Biz" "Not available" "5551234567"
    (SchemaData.mk "Biz" "1 Main St" "5551234567" "")

/-- A website record with a mismatched address and a missing schema phone. -/
def websiteMix : WebsiteData :=
  WebsiteData.mk "Biz" "2 Oak Ave" "5551234567"
    (SchemaData.mk "Biz" "1 Main St" "Not available" "")

/-- A Yext record whose phone is the `'Not available'` sentinel. -/
def yextSentinel : YextData := YextData.mk "Biz" "1 Main St" "Not available"

theorem listStartsWith_iff : ∀ n h : List Char, listStartsWith n h = true ↔ ∃ t, n ++ t = h := by
  intro n
  induction n with
  | nil => intro h; simp [listStartsWith]
  | cons c cs ih =>
    intro h
    cases h with
    | nil => simp [listStartsWith]
    | cons d ds =>
      simp only [listStartsWith, Bool.and_eq_true, beq_iff_eq, ih ds, List.cons_append,
        List.cons.injEq]
      constructor
      · rintro ⟨rfl, t, rfl⟩; exact ⟨t, rfl, rfl⟩
      · rintro ⟨t, rfl, rfl⟩; exact ⟨rfl, t, rfl⟩

theorem pyIn_iff : ∀ n h : List Char, pyIn n h = true ↔ ∃ x y, x ++ n ++ y = h := by
  intro n h
  induction h with
  | nil =>
    simp only [pyIn, List.isEmpty_iff]
    constructor
    · rintro rfl; exact ⟨[], [], rfl⟩
    · rintro ⟨x, y, hxy⟩
      rcases List.append_eq_nil.mp hxy with ⟨h1, -⟩
      exact (List.append_eq_nil.mp h1).2
  | cons d ds ih =>
    simp only [pyIn, Bool.or_eq_true, listStartsWith_iff, ih]
    constructor
    · rintro (⟨t, ht⟩ | ⟨x, y, hxy⟩)
      · exact ⟨[], t, by simpa using ht⟩
      · exact ⟨d :: x, y, by simp [hxy]⟩
    · rintro ⟨x, y, hxy⟩
      cases x with
      | nil => exact Or.inl ⟨y, by simpa using hxy⟩
      | cons e xs =>
        simp only [List.cons_append, List.cons.injEq] at hxy
        exact Or.inr ⟨xs, y, hxy.2⟩

theorem pyIn_refl (s : List Char) : pyIn s s = true :=
  (pyIn_iff s s).mpr ⟨[], [], by simp⟩

theorem simTail_self (c : List Char) : simTail c c = 9/10 := by
  unfold simTail
  rw [pyIn_refl]
  simp

theorem splitAux_parts : ∀ (s acc w : List Char), w ∈ splitAux s acc →
    ∃ x y, x ++ w ++ y = acc.reverse ++ s := by
  intro s
  induction s with
  | nil =>
    intro acc w hw
    by_cases ha : acc = []
    · simp [splitAux, ha] at hw
    · rw [splitAux, if_neg ha] at hw
      simp only [List.mem_singleton] at hw
      subst hw
      exact ⟨[], [], by simp⟩
  | cons c rest ih =>
    intro acc w hw
    rw [splitAux] at hw
    by_cases hc : isPySpace c = true
    · rw [if_pos hc] at hw
      by_cases ha : acc = []
      · rw [if_pos ha] at hw
        obtain ⟨x, y, hxy⟩ := ih [] w hw
        subst ha
        refine ⟨c :: x, y, ?_⟩
        simp only [List.reverse_nil, List.nil_append] at hxy ⊢
        simp [hxy]
      · rw [if_neg ha] at hw
        rcases List.mem_cons.mp hw with h1 | h2
        · subst h1; exact ⟨[], c :: rest, by simp⟩
        · obtain ⟨x, y, hxy⟩ := ih [] w h2
          simp only [List.reverse_nil, List.nil_append] at hxy
          refine ⟨acc.reverse ++ c :: x, y, ?_⟩
          simp [hxy]
    · rw [if_neg hc] at hw
      obtain ⟨x, y, hxy⟩ := ih (c :: acc) w hw
      refine ⟨x, y, ?_⟩
      simpa using hxy

theorem splitAux_ne_nil_acc : ∀ (s acc : List Char), acc ≠ [] → splitAux s acc ≠ [] := by
  intro s
  induction s with
  | nil => intro acc ha; rw [splitAux, if_neg ha]; simp
  | cons c rest ih =>
    intro acc ha
    rw [splitAux]
    by_cases hc : isPySpace c = true
    · rw [if_pos hc, if_neg ha]; simp
    · rw [if_neg hc]; exact ih (c :: acc) (by simp)

theorem splitAux_ne_nil : ∀ (s acc : List Char), (∃ c ∈ s, isPySpace c = false) →
    splitAux s acc ≠ [] := by
  intro s
  induction s with
  | nil => rintro acc ⟨c, hc, -⟩; simp at hc
  | cons c rest ih =>
    rintro acc ⟨d, hd, hds⟩
    rw [splitAux]
    by_cases hc : isPySpace c = true
    · rw [if_pos hc]
      have hdr : d ∈ rest := by
        rcases List.mem_cons.mp hd with rfl | h
        · rw [hc] at hds; cases hds
        · exact h
      by_cases ha : acc = []
      · rw [if_pos ha]; exact ih [] ⟨d, hdr, hds⟩
      · rw [if_neg ha]; simp
    · rw [if_neg hc]
      exact splitAux_ne_nil_acc rest (c :: acc) (by simp)

theorem any_split_self (n : List Char) (hp : pyIn patHH n = true) :
    (pySplitWs n).any (fun w => pyIn w n) = true := by
  obtain ⟨x, y, hxy⟩ := (pyIn_iff _ _).mp hp
  have hmemh : ('h' : Char) ∈ n := by
    rw [← hxy]
    refine List.mem_append.mpr (Or.inl ?_)
    refine List.mem_append.mpr (Or.inr ?_)
    decide
  have hne : pySplitWs n ≠ [] := splitAux_ne_nil n [] ⟨'h', hmemh, by decide⟩
  obtain ⟨w, ws, hweq⟩ := List.exists_cons_of_ne_nil hne
  have hw : w ∈ pySplitWs n := by rw [hweq]; exact List.mem_cons_self w ws
  obtain ⟨x', y', hx'⟩ := splitAux_parts n [] w hw
  simp only [List.reverse_nil, List.nil_append] at hx'
  exact List.any_eq_true.mpr ⟨w, hw, (pyIn_iff _ _).mpr ⟨x', y', hx'⟩⟩

/-- Helper for C3: the scorer returns exactly 0.9 on any pair of equal
non-empty names, because the two cleaned forms coincide and the containment
shortcut fires (or, in the Home Helpers branch, the shared-word check
fires). -/
theorem calc_sim_self (a : String) (h : a ≠ "") :
    calculate_similarity_score a a = 9/10 := by
  unfold calculate_similarity_score
  rw [if_neg (by simp [h])]
  unfold calcSimCore
  by_cases h360 : (pyIn pat360 (pyStrip (pyLower a.toList)) ||
      pyIn pat360 (pyStrip (pyLower a.toList))) = true
  · rw [if_pos h360]; exact simTail_self _
  · rw [if_neg h360]
    by_cases hhh : (pyIn patHH (pyStrip (pyLower a.toList)) &&
        pyIn patHH (pyStrip (pyLower a.toList))) = true
    · rw [if_pos hhh]
      simp only []
      by_cases hcom : (wordsOf (hhClean (pyStrip (pyLower a.toList)))).filter
          (fun w => w ∈ wordsOf (hhClean (pyStrip (pyLower a.toList)))) = []
      · rw [if_pos hcom]; exact simTail_self _
      · rw [if_neg hcom,
          if_pos (any_split_self _ ((Bool.and_eq_true _ _).mp hhh).1)]
    · rw [if_neg hhh]; exact simTail_self _

/-- C3 (counterexample): the claim `score(a, a) = 1.0` fails at the
non-empty name `"acme plumbing"`, which has qualifying (length > 2) words
after cleaning, yet scores 0.9 against itself. -/
theorem self_score_not_one :
    calculate_similarity_score "acme plumbing" "acme plumbing" = 9/10 ∧
    ((9 : ℚ)/10 ≠ 1) ∧ ("acme plumbing" : String) ≠ "" ∧
    bigWords (genericClean (pyStrip (pyLower "acme plumbing".toList))) ≠ [] := by
  refine ⟨by with_unfolding_all decide, by norm_num, by decide, by decide⟩

/-- C3 (amended): for every non-empty name `a`,
`calculate_similarity_score a a = 0.9` (not 1.0): the two cleaned forms are
identical, so the containment shortcut — or, in the Home Helpers branch, the
shared-word check — fires and returns the fixed 0.9 score. -/
theorem self_score_eq_nine_tenths (a : String) (h : a ≠ "") :
    calculate_similarity_score a a = 9/10 :=
  calc_sim_self a h

/-- Witness for C3's amended theorem at the concrete input `"acme plumbing"`. -/
theorem self_score_eq_nine_tenths_witness :
    calculate_similarity_score "acme plumbing" "acme plumbing" = 9/10 :=
  self_score_eq_nine_tenths "acme plumbing" (by decide)

set_option maxRecDepth 100000 in
/-- C9: the two Home Helpers locations score 2/35 ≈ 0.057 < 0.7: the
franchise boilerplate is stripped, leaving the cleaned names `"dayton"` and
`"columbus"` with no shared tokens. -/
theorem home_helpers_cross_location_below_threshold :
    calculate_similarity_score "Home Helpers of Dayton" "Home Helpers Columbus" = 2/35 ∧
    hhClean (pyStrip (pyLower "Home Helpers of Dayton".toList)) = "dayton".toList ∧
    hhClean (pyStrip (pyLower "Home Helpers Columbus".toList)) = "columbus".toList ∧
    ((2 : ℚ)/35 < 7/10) := by
  refine ⟨by with_unfolding_all decide, by decide, by decide, by norm_num⟩

/-- C10: `"Inc"` and `"Ltd"` are distinct names sharing nothing, yet the
generic cleaning reduces both to the empty string, the empty string passes
the substring-containment check, and the score 0.9 clears the 0.7 match
threshold. -/
theorem stopword_names_score_high :
    calculate_similarity_score "Inc" "Ltd" = 9/10 ∧
    genericClean (pyStrip (pyLower "Inc".toList)) = [] ∧
    genericClean (pyStrip (pyLower "Ltd".toList)) = [] ∧
    ("Inc" : String) ≠ "Ltd" ∧ ((7 : ℚ)/10 ≤ 9/10) := by
  refine ⟨by with_unfolding_all decide, by decide, by decide, by decide, by norm_num⟩

/-- The best-match loop invariant: starting from `(bm, bs)`, the loop either
leaves the state unchanged (every candidate scores at most `bs`), or ends on
the earliest candidate that strictly beats `bs` and every other score. -/
theorem bestLoop_spec (q : String) :
    ∀ (l : List Place) (bm : Option Place) (bs : ℚ),
      (bestLoop q bm bs l = (bm, bs) ∧ ∀ p ∈ l, adjScore q p ≤ bs) ∨
      (∃ i, ∃ hi : i < l.length,
        bestLoop q bm bs l = (some (l.get ⟨i, hi⟩), adjScore q (l.get ⟨i, hi⟩)) ∧
        bs < adjScore q (l.get ⟨i, hi⟩) ∧
        (∀ p ∈ l, adjScore q p ≤ adjScore q (l.get ⟨i, hi⟩)) ∧
        (∀ j, ∀ hj : j < i,
          adjScore q (l.get ⟨j, Nat.lt_trans hj hi⟩) < adjScore q (l.get ⟨i, hi⟩))) := by
  intro l
  induction l with
  | nil => intro bm bs; exact Or.inl ⟨rfl, by simp⟩
  | cons p rest ih =>
    intro bm bs
    rw [bestLoop]
    by_cases hc : bs < adjScore q p
    · rw [if_pos hc]
      rcases ih (some p) (adjScore q p) with ⟨heq, hall⟩ | ⟨i, hi, heq, hgt, hall, hfirst⟩
      · refine Or.inr ⟨0, by simp, ?_, ?_, ?_, ?_⟩
        · simpa using heq
        · simpa using hc
        · intro p' hp'
          rcases List.mem_cons.mp hp' with rfl | hmem
          · simp
          · simpa using hall p' hmem
        · intro j hj; omega
      · refine Or.inr ⟨i + 1, by simpa using Nat.succ_lt_succ hi, ?_, ?_, ?_, ?_⟩
        · simpa using heq
        · calc bs < adjScore q p := hc
            _ < _ := hgt
        · intro p' hp'
          rcases List.mem_cons.mp hp' with rfl | hmem
          · simpa using le_of_lt hgt
          · simpa using hall p' hmem
        · intro j hj
          cases j with
          | zero => simpa using hgt
          | succ j' => simpa using hfirst j' (by omega)
    · rw [if_neg hc]
      have hle : adjScore q p ≤ bs := not_lt.mp hc
      rcases ih bm bs with ⟨heq, hall⟩ | ⟨i, hi, heq, hgt, hall, hfirst⟩
      · refine Or.inl ⟨heq, ?_⟩
        intro p' hp'
        rcases List.mem_cons.mp hp' with rfl | hmem
        · exact hle
        · exact hall p' hmem
      · refine Or.inr ⟨i + 1, by simpa using Nat.succ_lt_succ hi, ?_, ?_, ?_, ?_⟩
        · simpa using heq
        · simpa using hgt
        · intro p' hp'
          rcases List.mem_cons.mp hp' with rfl | hmem
          · simpa using le_trans hle (le_of_lt hgt)
          · simpa using hall p' hmem
        · intro j hj
          cases j with
          | zero => simpa using lt_of_le_of_lt hle hgt
          | succ j' => simpa using hfirst j' (by omega)

/-- C1: whenever `search_google_place` returns a `match` result, the record
comes from a candidate whose adjusted similarity score is at least 0.70, no
candidate scores strictly higher, and every earlier candidate scores
strictly lower (first wins on ties). -/
theorem search_match_is_first_best (q : String) (ps : List Place) (n a ph w : String)
    (h : searchGooglePlace q (Except.ok ps) = SearchOutcome.matched n a ph w) :
    isFirstBest q ps n a ph w := by
  rw [searchGooglePlace, selectPlace] at h
  by_cases hl : 0 < ps.length
  swap
  · rw [if_neg hl] at h; cases h
  rw [if_pos hl] at h
  rcases hb : bestLoop q none 0 ps with ⟨bm, bs⟩
  rw [hb] at h
  cases bm with
  | none => cases h
  | some p =>
    replace h : (if (7 : ℚ)/10 ≤ bs then
        SearchOutcome.matched (p.displayName.getD "") (placeAddress p)
          (pyOrS p.nationalPhoneNumber p.internationalPhoneNumber) p.websiteUri
      else SearchOutcome.noMatch (p.displayName.getD "No close match found")) =
        SearchOutcome.matched n a ph w := h
    by_cases ht : (7 : ℚ)/10 ≤ bs
    swap
    · rw [if_neg ht] at h; cases h
    rw [if_pos ht] at h
    rcases bestLoop_spec q ps none 0 with ⟨heq, -⟩ | ⟨i, hi, heq, -, hall, hfirst⟩
    · rw [hb] at heq; cases heq
    · rw [hb] at heq
      obtain ⟨hp, hbs⟩ := Prod.mk.injEq _ _ _ _ ▸ heq
      obtain rfl : p = ps.get ⟨i, hi⟩ := Option.some.injEq _ _ ▸ hp
      rcases SearchOutcome.matched.injEq _ _ _ _ _ _ _ _ ▸ h with ⟨hn, ha, hph, hw⟩
      exact ⟨i, hi, hbs ▸ ht, hall, hfirst, hn.symm, ha.symm, hph.symm, hw.symm⟩

/-- Witness for C1 at a concrete one-candidate search that matches. -/
theorem search_match_is_first_best_witness :
    isFirstBest "abc" [placeAbc] "abc" "" "" "" :=
  search_match_is_first_best "abc" [placeAbc] "abc" "" "" ""
    (by with_unfolding_all decide)

/-- C7 (counterexample): on a below-threshold search where every candidate
scores zero (here: the only candidate has an empty display name), the
`no_match` result carries the literal placeholder string `"None"` rather
than the top candidate's name, refuting the claim's diagnostics clause. -/
theorem no_match_closest_placeholder :
    searchGooglePlace "qq" (Except.ok [placeBlank]) = SearchOutcome.noMatch "None" ∧
    placeBlank.displayName.getD "" = "" ∧ ("None" : String) ≠ "" := by
  refine ⟨by with_unfolding_all decide, by decide, by decide⟩

/-- C7 (amended): `search_google_place` is total over its modelled inputs
and always returns a tagged result: an in-search failure yields the tagged
`error` result with its message, an empty candidate list yields
`no_results`, and a best score below the 0.70 threshold yields `no_match`
carrying the best candidate's display name when some candidate scored above
zero, and the placeholder `"None"` otherwise. -/
theorem search_outcome_total :
    (∀ q msg, searchGooglePlace q (Except.error msg) = SearchOutcome.searchError msg) ∧
    (∀ q, searchGooglePlace q (Except.ok []) = SearchOutcome.noResults) ∧
    (∀ q ps p s, bestLoop q none 0 ps = (some p, s) → s < 7/10 →
      searchGooglePlace q (Except.ok ps) =
        SearchOutcome.noMatch (p.displayName.getD "No close match found")) ∧
    (∀ q ps, ps ≠ [] → (bestLoop q none 0 ps).1 = none →
      searchGooglePlace q (Except.ok ps) = SearchOutcome.noMatch "None") := by
  refine ⟨fun q msg => rfl, fun q => rfl, ?_, ?_⟩
  · intro q ps p s hb hs
    cases ps with
    | nil => rw [bestLoop] at hb; cases hb
    | cons p0 rest =>
      rw [searchGooglePlace, selectPlace, if_pos (by simp), hb]
      show (if (7 : ℚ)/10 ≤ s then
          SearchOutcome.matched (p.displayName.getD "") (placeAddress p)
            (pyOrS p.nationalPhoneNumber p.internationalPhoneNumber) p.websiteUri
        else SearchOutcome.noMatch (p.displayName.getD "No close match found")) =
          SearchOutcome.noMatch (p.displayName.getD "No close match found")
      rw [if_neg (not_le.mpr hs)]
  · intro q ps hne h1
    cases ps with
    | nil => exact absurd rfl hne
    | cons p0 rest =>
      rw [searchGooglePlace, selectPlace, if_pos (by simp)]
      rcases hb : bestLoop q none 0 (p0 :: rest) with ⟨bm, bs⟩
      rw [hb] at h1
      cases bm with
      | none => rfl
      | some p => cases h1

/-- Witness for C7's amended theorem: the concrete all-zero-score search. -/
theorem search_outcome_total_witness :
    searchGooglePlace "qq" (Except.ok [placeBlank]) = SearchOutcome.noMatch "None" :=
  search_outcome_total.2.2.2 "qq" [placeBlank] (by decide)
    (by with_unfolding_all decide)

/-- C6: when the GBP search result status is `no_match`, `no_results` or
`error`, `determine_match_status` short-circuits to the `'No GBP Match'`
status and performs no field comparison: its result does not depend on the
website or Yext records, so no address or phone discrepancy is produced for
any source. -/
theorem no_gbp_match_short_circuit (g : GbpData) (w w' : Option WebsiteData)
    (y y' : Option YextData) (h : g.status ∈ shortCircuitStatuses) :
    (determine_match_status g w y).1 = "No GBP Match" ∧
    determine_match_status g w y = determine_match_status g w' y' := by
  rw [determine_match_status, determine_match_status, if_pos h, if_pos h]
  exact ⟨rfl, rfl⟩

/-- Witness for C6 at a concrete `no_results` record and differing sources. -/
theorem no_gbp_match_short_circuit_witness :
    (determine_match_status (GbpData.mk "no_results" "" "" "" none) none none).1 =
      "No GBP Match" ∧
    determine_match_status (GbpData.mk "no_results" "" "" "" none) none none =
      determine_match_status (GbpData.mk "no_results" "" "" "" none)
        (some (WebsiteData.mk "b" "1 Main St" "5551234567"
          (SchemaData.mk "b" "1 Main St" "5551234567" ""))) none :=
  no_gbp_match_short_circuit _ _ _ _ _ (by decide)

/-- C2 (counterexample): for the input `"(44) 123"`, whose digit count is 5,
`normalize_phone_number` returns the original string unchanged, not the
digit-stripped string `"44123"` the claim requires. -/
theorem normalize_phone_not_digit_stripped :
    stripNonDigits "(44) 123" = "44123" ∧
    normalize_phone_number "(44) 123" = some "(44) 123" ∧
    ("(44) 123" : String) ≠ "44123" := by
  refine ⟨by decide, by decide, by decide⟩

/-- C2 (amended): `normalize_phone_number` strips all non-digit characters
only to count the digits; when exactly 10 remain it returns `'+1'` followed
by those digits (so the three example formats all normalize to
`'+15551234567'`), when the digit count is not 10 it returns the original
input string unchanged, and a falsy (empty) input yields `None`. -/
theorem normalize_phone_spec :
    normalize_phone_number "(555) 123-4567" = some "+15551234567" ∧
    normalize_phone_number "5551234567" = some "+15551234567" ∧
    normalize_phone_number "555.123.4567" = some "+15551234567" ∧
    normalize_phone_number "" = none ∧
    (∀ s : String, s ≠ "" → (stripNonDigits s).length = 10 →
      normalize_phone_number s = some ("+1" ++ stripNonDigits s)) ∧
    (∀ s : String, s ≠ "" → (stripNonDigits s).length ≠ 10 →
      normalize_phone_number s = some s) := by
  refine ⟨by decide, by decide, by decide, by decide, ?_, ?_⟩
  · intro s hs h10
    rw [normalize_phone_number, if_neg hs, if_pos h10]
  · intro s hs h10
    rw [normalize_phone_number, if_neg hs, if_neg h10]

/-- Witness for C2's amended theorem at the concrete input `"(44) 123"`. -/
theorem normalize_phone_spec_witness :
    normalize_phone_number "(44) 123" = some "(44) 123" :=
  normalize_phone_spec.2.2.2.2.2 "(44) 123" (by decide) (by decide)

theorem fieldCheck_fst (sen : List String) (L ma mma : String) (r o : Option String) :
    (fieldCheck sen L ma mma r o).1 = [] ∨ (fieldCheck sen L ma mma r o).1 = [L] := by
  rw [fieldCheck]
  split_ifs <;> simp

theorem schemaFormatCheck_fst (fe : String) :
    (schemaFormatCheck fe).1 = [] ∨ (schemaFormatCheck fe).1 = ["Fix Schema Formatting"] := by
  rw [schemaFormatCheck]
  split_ifs <;> simp

theorem count_fieldCheck (sen : List String) (L ma mma : String) (r o : Option String)
    (L' : String) (h : L' ≠ L) :
    List.count L' (fieldCheck sen L ma mma r o).1 = 0 := by
  rcases fieldCheck_fst sen L ma mma r o with he | he <;> rw [he] <;>
    simp [List.count_cons, h]

theorem count_schemaFormatCheck (fe : String) (L' : String)
    (h : L' ≠ "Fix Schema Formatting") :
    List.count L' (schemaFormatCheck fe).1 = 0 := by
  rcases schemaFormatCheck_fst fe with he | he <;> rw [he] <;>
    simp [List.count_cons, h]

theorem count_yextChecks (ga gp : Option String) (y : Option YextData) (L' : String)
    (h1 : L' ≠ "Update Yext Address") (h2 : L' ≠ "Update Yext Phone") :
    List.count L' (yextChecks ga gp y).1 = 0 := by
  cases y with
  | none => simp [yextChecks]
  | some yd =>
    simp only [yextChecks, catP, List.count_append]
    rw [count_fieldCheck _ _ _ _ _ _ _ h1, count_fieldCheck _ _ _ _ _ _ _ h2]

theorem count_websiteChecks (ga gp : Option String) (w : Option WebsiteData) (L' : String)
    (h1 : L' ≠ "Update Website Address") (h2 : L' ≠ "Update Website Phone")
    (h3 : L' ≠ "Fix Schema Formatting") (h4 : L' ≠ "Update Schema Address")
    (h5 : L' ≠ "Update Schema Phone") :
    List.count L' (websiteChecks ga gp w).1 = 0 := by
  cases w with
  | none => simp [websiteChecks]
  | some wd =>
    simp only [websiteChecks, catP, List.count_append]
    rw [count_fieldCheck _ _ _ _ _ _ _ h1, count_fieldCheck _ _ _ _ _ _ _ h2,
      count_schemaFormatCheck _ _ h3, count_fieldCheck _ _ _ _ _ _ _ h4,
      count_fieldCheck _ _ _ _ _ _ _ h5]

/-- C5 (counterexample): a website record whose scraped address is the empty
string — an element of the defined missing-sentinel set — produces no
Missing discrepancy at all: `normalize_address` maps `''` to `None`, which
escapes the sentinel membership test, and the whole audit reports All Good. -/
theorem empty_address_not_flagged :
    ("" ∈ missing_address) ∧ websiteNoAddr.address = "" ∧
    normalize_address websiteNoAddr.address = none ∧
    List.count "Update Website Address" (computeIssues gbpRef (some websiteNoAddr) none).1 = 0 ∧
    determine_match_status gbpRef (some websiteNoAddr) none =
      ("All Good", "All NAP information is consistent.") := by
  refine ⟨by decide, by decide, by decide, by decide, by decide⟩

/-- C5 (amended): for every other-source field — website, schema or Yext,
address or phone — whose *normalized* value lies in the defined
missing-sentinel set, the reconciler records exactly one Missing discrepancy
of that field's category, and its action text references the reference (GBP)
value.  An absent (empty) value instead normalizes to `None` and is never
flagged. -/
theorem missing_sentinel_unique_issue :
    (∀ (g : GbpData) (wd : WebsiteData) (y : Option YextData) (s : String),
      normalize_address wd.address = some s → s ∈ missing_address →
      List.count "Update Website Address" (computeIssues g (some wd) y).1 = 1 ∧
      ("Website Address Missing - GBP: '" ++ optStr (normalize_address g.address) ++ "'")
        ∈ (computeIssues g (some wd) y).2) ∧
    (∀ (g : GbpData) (wd : WebsiteData) (y : Option YextData) (s : String),
      normalize_phone_number wd.phone = some s → s ∈ missing_phone →
      List.count "Update Website Phone" (computeIssues g (some wd) y).1 = 1 ∧
      ("Website Phone Missing - GBP: '" ++ optStr (normalize_phone_number g.phone) ++ "'")
        ∈ (computeIssues g (some wd) y).2) ∧
    (∀ (g : GbpData) (wd : WebsiteData) (y : Option YextData) (s : String),
      normalize_address wd.schema.address = some s → s ∈ missing_address →
      List.count "Update Schema Address" (computeIssues g (some wd) y).1 = 1 ∧
      ("Schema Address Missing - GBP: '" ++ optStr (normalize_address g.address) ++ "'")
        ∈ (computeIssues g (some wd) y).2) ∧
    (∀ (g : GbpData) (wd : WebsiteData) (y : Option YextData) (s : String),
      normalize_phone_number wd.schema.phone = some s → s ∈ missing_phone →
      List.count "Update Schema Phone" (computeIssues g (some wd) y).1 = 1 ∧
      ("Schema Phone Missing - GBP: '" ++ optStr (normalize_phone_number g.phone) ++ "'")
        ∈ (computeIssues g (some wd) y).2) ∧
    (∀ (g : GbpData) (w : Option WebsiteData) (yd : YextData) (s : String),
      normalize_address yd.address = some s → s ∈ missing_address →
      List.count "Update Yext Address" (computeIssues g w (some yd)).1 = 1 ∧
      ("Yext Address Missing - GBP: '" ++ optStr (normalize_address g.address) ++ "'")
        ∈ (computeIssues g w (some yd)).2) ∧
    (∀ (g : GbpData) (w : Option WebsiteData) (yd : YextData) (s : String),
      normalize_phone_number yd.phone = some s → s ∈ missing_phone →
      List.count "Update Yext Phone" (computeIssues g w (some yd)).1 = 1 ∧
      ("Yext Phone Missing - GBP: '" ++ optStr (normalize_phone_number g.phone) ++ "'")
        ∈ (computeIssues g w (some yd)).2) := by
  refine ⟨?_, ?_, ?_, ?_, ?_, ?_⟩
  · intro g wd y s hn hm
    have hMiss : optInList (normalize_address wd.address) missing_address = true := by
      rw [hn, optInList]
      fin_cases hm <;> decide
    have hA : fieldCheck missing_address "Update Website Address"
        ("Website Address Missing - GBP: '" ++ optStr (normalize_address g.address) ++ "'")
        ("Address Mismatch - GBP: '" ++ optStr (normalize_address g.address) ++ "' vs Website: '"
          ++ optStr (normalize_address wd.address) ++ "'")
        (normalize_address g.address) (normalize_address wd.address) =
        (["Update Website Address"],
          ["Website Address Missing - GBP: '" ++ optStr (normalize_address g.address) ++ "'"]) := by
      rw [fieldCheck, if_pos hMiss]
    constructor
    · simp only [computeIssues, websiteChecks, catP, List.count_append, hA]
      rw [count_fieldCheck _ _ _ _ _ _ _ (by decide),
        count_schemaFormatCheck _ _ (by decide),
        count_fieldCheck _ _ _ _ _ _ _ (by decide),
        count_fieldCheck _ _ _ _ _ _ _ (by decide),
        count_yextChecks _ _ _ _ (by decide) (by decide)]
      decide
    · simp only [computeIssues, websiteChecks, catP, hA]
      simp
  · intro g wd y s hn hm
    have hMiss : optInList (normalize_phone_number wd.phone) missing_phone = true := by
      rw [hn, optInList]
      fin_cases hm <;> decide
    have hA : fieldCheck missing_phone "Update Website Phone"
        ("Website Phone Missing - GBP: '" ++ optStr (normalize_phone_number g.phone) ++ "'")
        ("Phone Mismatch - GBP: '" ++ optStr (normalize_phone_number g.phone) ++ "' vs Website: '"
          ++ optStr (normalize_phone_number wd.phone) ++ "'")
        (normalize_phone_number g.phone) (normalize_phone_number wd.phone) =
        (["Update Website Phone"],
          ["Website Phone Missing - GBP: '" ++ optStr (normalize_phone_number g.phone) ++ "'"]) := by
      rw [fieldCheck, if_pos hMiss]
    constructor
    · simp only [computeIssues, websiteChecks, catP, List.count_append, hA]
      rw [count_fieldCheck _ _ _ _ _ _ _ (by decide),
        count_schemaFormatCheck _ _ (by decide),
        count_fieldCheck _ _ _ _ _ _ _ (by decide),
        count_fieldCheck _ _ _ _ _ _ _ (by decide),
        count_yextChecks _ _ _ _ (by decide) (by decide)]
      decide
    · simp only [computeIssues, websiteChecks, catP, hA]
      simp
  · intro g wd y s hn hm
    have hMiss : optInList (normalize_address wd.schema.address) missing_address = true := by
      rw [hn, optInList]
      fin_cases hm <;> decide
    have hA : fieldCheck missing_address "Update Schema Address"
        ("Schema Address Missing - GBP: '" ++ optStr (normalize_address g.address) ++ "'")
        ("Schema Address Mismatch - GBP: '" ++ optStr (normalize_address g.address)
          ++ "' vs Schema: '" ++ optStr (normalize_address wd.schema.address) ++ "'")
        (normalize_address g.address) (normalize_address wd.schema.address) =
        (["Update Schema Address"],
          ["Schema Address Missing - GBP: '" ++ optStr (normalize_address g.address) ++ "'"]) := by
      rw [fieldCheck, if_pos hMiss]
    constructor
    · simp only [computeIssues, websiteChecks, catP, List.count_append, hA]
      rw [count_fieldCheck _ _ _ _ _ _ _ (by decide),
        count_fieldCheck _ _ _ _ _ _ _ (by decide),
        count_schemaFormatCheck _ _ (by decide),
        count_fieldCheck _ _ _ _ _ _ _ (by decide),
        count_yextChecks _ _ _ _ (by decide) (by decide)]
      decide
    · simp only [computeIssues, websiteChecks, catP, hA]
      simp
  · intro g wd y s hn hm
    have hMiss : optInList (normalize_phone_number wd.schema.phone) missing_phone = true := by
      rw [hn, optInList]
      fin_cases hm <;> decide
    have hA : fieldCheck missing_phone "Update Schema Phone"
        ("Schema Phone Missing - GBP: '" ++ optStr (normalize_phone_number g.phone) ++ "'")
        ("Schema Phone Mismatch - GBP: '" ++ optStr (normalize_phone_number g.phone)
          ++ "' vs Schema: '" ++ optStr (normalize_phone_number wd.schema.phone) ++ "'")
        (normalize_phone_number g.phone) (normalize_phone_number wd.schema.phone) =
        (["Update Schema Phone"],
          ["Schema Phone Missing - GBP: '" ++ optStr (normalize_phone_number g.phone) ++ "'"]) := by
      rw [fieldCheck, if_pos hMiss]
    constructor
    · simp only [computeIssues, websiteChecks, catP, List.count_append, hA]
      rw [count_fieldCheck _ _ _ _ _ _ _ (by decide),
        count_fieldCheck _ _ _ _ _ _ _ (by decide),
        count_schemaFormatCheck _ _ (by decide),
        count_fieldCheck _ _ _ _ _ _ _ (by decide),
        count_yextChecks _ _ _ _ (by decide) (by decide)]
      decide
    · simp only [computeIssues, websiteChecks, catP, hA]
      simp
  · intro g w yd s hn hm
    have hMiss : optInList (normalize_address yd.address) missing_address = true := by
      rw [hn, optInList]
      fin_cases hm <;> decide
    have hA : fieldCheck missing_address "Update Yext Address"
        ("Yext Address Missing - GBP: '" ++ optStr (normalize_address g.address) ++ "'")
        ("Yext Address Mismatch - GBP: '" ++ optStr (normalize_address g.address)
          ++ "' vs Yext: '" ++ optStr (normalize_address yd.address) ++ "'")
        (normalize_address g.address) (normalize_address yd.address) =
        (["Update Yext Address"],
          ["Yext Address Missing - GBP: '" ++ optStr (normalize_address g.address) ++ "'"]) := by
      rw [fieldCheck, if_pos hMiss]
    constructor
    · simp only [computeIssues, yextChecks, catP, List.count_append, hA]
      rw [count_websiteChecks _ _ _ _ (by decide) (by decide) (by decide) (by decide) (by decide),
        count_fieldCheck _ _ _ _ _ _ _ (by decide)]
      decide
    · simp only [computeIssues, yextChecks, catP, hA]
      simp
  · intro g w yd s hn hm
    have hMiss : optInList (normalize_phone_number yd.phone) missing_phone = true := by
      rw [hn, optInList]
      fin_cases hm <;> decide
    have hA : fieldCheck missing_phone "Update Yext Phone"
        ("Yext Phone Missing - GBP: '" ++ optStr (normalize_phone_number g.phone) ++ "'")
        ("Yext Phone Mismatch - GBP: '" ++ optStr (normalize_phone_number g.phone)
          ++ "' vs Yext: '" ++ optStr (normalize_phone_number yd.phone) ++ "'")
        (normalize_phone_number g.phone) (normalize_phone_number yd.phone) =
        (["Update Yext Phone"],
          ["Yext Phone Missing - GBP: '" ++ optStr (normalize_phone_number g.phone) ++ "'"]) := by
      rw [fieldCheck, if_pos hMiss]
    constructor
    · simp only [computeIssues, yextChecks, catP, List.count_append, hA]
      rw [count_websiteChecks _ _ _ _ (by decide) (by decide) (by decide) (by decide) (by decide),
        count_fieldCheck _ _ _ _ _ _ _ (by decide)]
      decide
    · simp only [computeIssues, yextChecks, catP, hA]
      simp

/-- Witness for C5's amended theorem: the website-address clause at the
`'Not available'` sentinel, and the Yext-phone clause at the same sentinel. -/
theorem missing_sentinel_unique_issue_witness :
    (List.count "Update Website Address"
        (computeIssues gbpRef (some websiteSentinel) none).1 = 1 ∧
      ("Website Address Missing - GBP: '" ++
          optStr (normalize_address gbpRef.address) ++ "'")
        ∈ (computeIssues gbpRef (some websiteSentinel) none).2) ∧
    (List.count "Update Yext Phone"
        (computeIssues gbpRef none (some yextSentinel)).1 = 1 ∧
      ("Yext Phone Missing - GBP: '" ++
          optStr (normalize_phone_number gbpRef.phone) ++ "'")
        ∈ (computeIssues gbpRef none (some yextSentinel)).2) :=
  ⟨missing_sentinel_unique_issue.1 gbpRef websiteSentinel none "Not available"
      (by decide) (by decide),
    missing_sentinel_unique_issue.2.2.2.2.2 gbpRef none yextSentinel "Not available"
      (by decide) (by decide)⟩

theorem mem_fieldCheck (sen : List String) (L ma mma : String) (r o : Option String)
    (s : String) (h : s ∈ (fieldCheck sen L ma mma r o).1) : s = L := by
  rcases fieldCheck_fst sen L ma mma r o with he | he
  · rw [he] at h; simp at h
  · rw [he] at h; simpa using h

theorem mem_schemaFormatCheck (fe : String) (s : String)
    (h : s ∈ (schemaFormatCheck fe).1) : s = "Fix Schema Formatting" := by
  rcases schemaFormatCheck_fst fe with he | he
  · rw [he] at h; simp at h
  · rw [he] at h; simpa using h

/-- Every issue string produced by the comparison phase is one of the seven
fixed category constants. -/
theorem computeIssues_labels (g : GbpData) (w : Option WebsiteData) (y : Option YextData) :
    ∀ s ∈ (computeIssues g w y).1,
      s ∈ (["Update Website Address", "Update Website Phone", "Fix Schema Formatting",
        "Update Schema Address", "Update Schema Phone", "Update Yext Address",
        "Update Yext Phone"] : List String) := by
  intro s hs
  simp only [computeIssues, catP, List.mem_append] at hs
  rcases hs with hw | hy
  · cases w with
    | none => simp [websiteChecks] at hw
    | some wd =>
      simp only [websiteChecks, catP, List.mem_append] at hw
      rcases hw with ((h | h) | (h | (h | h)))
      · rw [mem_fieldCheck _ _ _ _ _ _ _ h]; decide
      · rw [mem_fieldCheck _ _ _ _ _ _ _ h]; decide
      · rw [mem_schemaFormatCheck _ _ h]; decide
      · rw [mem_fieldCheck _ _ _ _ _ _ _ h]; decide
      · rw [mem_fieldCheck _ _ _ _ _ _ _ h]; decide
  · cases y with
    | none => simp [yextChecks] at hy
    | some yd =>
      simp only [yextChecks, catP, List.mem_append] at hy
      rcases hy with h | h
      · rw [mem_fieldCheck _ _ _ _ _ _ _ h]; decide
      · rw [mem_fieldCheck _ _ _ _ _ _ _ h]; decide

theorem pyJoin_len (sep x : String) (xs : List String) :
    x.length ≤ (pyJoin sep (x :: xs)).length := by
  cases xs with
  | nil => simp [pyJoin]
  | cons y ys =>
    simp only [pyJoin, String.length_append]
    omega

theorem sortedDedup_perm (l : List String) : List.Perm (sortedDedup l) l.dedup :=
  List.perm_insertionSort _ _

theorem sortedDedup_sorted (l : List String) :
    (sortedDedup l).Sorted (fun a b : String => a ≤ b) :=
  List.sorted_insertionSort _ _

theorem sortedDedup_nodup (l : List String) : (sortedDedup l).Nodup :=
  (sortedDedup_perm l).nodup_iff.mpr (List.nodup_dedup l)

theorem sortedDedup_mem (l : List String) (a : String) :
    a ∈ sortedDedup l ↔ a ∈ l :=
  (sortedDedup_perm l).mem_iff.trans List.mem_dedup

theorem sortedDedup_ne_nil (l : List String) (h : l ≠ []) : sortedDedup l ≠ [] := by
  intro h0
  have hperm := sortedDedup_perm l
  rw [h0] at hperm
  exact h ((List.dedup_eq_nil l).mp hperm.symm.eq_nil)

/-- The joined status string of a non-empty issue list is never the
`'All Good'` constant: every category constant is at least 17 characters
long, while `'All Good'` has 8. -/
theorem status_ne_allgood (g : GbpData) (w : Option WebsiteData) (y : Option YextData)
    (hne : (computeIssues g w y).1 ≠ []) :
    pyJoin " / " (sortedDedup (computeIssues g w y).1) ≠ "All Good" := by
  intro hAG
  obtain ⟨x, xs, hx⟩ := List.exists_cons_of_ne_nil (sortedDedup_ne_nil _ hne)
  have hmem : x ∈ (computeIssues g w y).1 := by
    rw [← sortedDedup_mem, hx]
    exact List.mem_cons_self x xs
  have hlab := computeIssues_labels g w y x hmem
  have hlen : 17 ≤ x.length := by
    fin_cases hlab <;> decide
  have hle := pyJoin_len " / " x xs
  rw [← hx, hAG] at hle
  have h8 : ("All Good" : String).length = 8 := by decide
  omega

/-- C4 (counterexample): with a website address mismatch and a missing
schema phone, the returned status is
`'Update Schema Phone / Update Website Address'` — the deduplicated
categories in lexicographic string order, which sorts by source tag
(Schema < Website < Yext) before field — not in the claimed
field-then-source order (which would put the Address category first). -/
theorem status_sort_order_by_source :
    determine_match_status gbpRef (some websiteMix) none =
      ("Update Schema Phone / Update Website Address",
        "Address Mismatch - GBP: '1 Main St' vs Website: '2 Oak Ave' | Schema Phone Missing - GBP: '+15551234567'") ∧
    (computeIssues gbpRef (some websiteMix) none).1 =
      ["Update Website Address", "Update Schema Phone"] ∧
    ("Update Schema Phone / Update Website Address" : String) ≠
      "Update Website Address / Update Schema Phone" := by
  refine ⟨by with_unfolding_all decide, by decide, by decide⟩

/-- C4 (amended): when the reference search matched, the reconciler returns
the all-good pair exactly when zero discrepancies were recorded; otherwise
the status and action strings are the deduplicated sets of distinct
discrepancy categories and action texts joined in increasing lexicographic
string order (which orders by source tag, then by field) — a deterministic
function of the inputs, hence byte-identical across repeated runs. -/
theorem determine_match_status_spec (g : GbpData) (w : Option WebsiteData)
    (y : Option YextData) (h : g.status ∉ shortCircuitStatuses) :
    (determine_match_status g w y = ("All Good", "All NAP information is consistent.") ↔
      (computeIssues g w y).1 = []) ∧
    ((computeIssues g w y).1 ≠ [] →
      determine_match_status g w y =
        (pyJoin " / " (sortedDedup (computeIssues g w y).1),
          pyJoin " | " (sortedDedup (computeIssues g w y).2))) ∧
    (sortedDedup (computeIssues g w y).1).Sorted (fun a b : String => a ≤ b) ∧
    (sortedDedup (computeIssues g w y).1).Nodup ∧
    (∀ s, s ∈ sortedDedup (computeIssues g w y).1 ↔ s ∈ (computeIssues g w y).1) := by
  refine ⟨⟨?_, ?_⟩, ?_, sortedDedup_sorted _, sortedDedup_nodup _,
    fun s => sortedDedup_mem _ s⟩
  · intro hEq
    by_contra hne
    rw [determine_match_status, if_neg h, if_neg hne] at hEq
    exact status_ne_allgood g w y hne (congrArg Prod.fst hEq)
  · intro hnil
    rw [determine_match_status, if_neg h, if_pos hnil]
  · intro hne
    rw [determine_match_status, if_neg h, if_neg hne]

/-- Witness for C4's amended theorem: a matched reference with no other
sources reports All Good, with zero recorded discrepancies. -/
theorem determine_match_status_spec_witness :
    determine_match_status gbpRef none none =
      ("All Good", "All NAP information is consistent.") ↔
    (computeIssues gbpRef none none).1 = [] :=
  (determine_match_status_spec gbpRef none none (by decide)).1

theorem filter_mem_length_comm (l1 l2 : List (List Char)) (h1 : l1.Nodup) (h2 : l2.Nodup) :
    (l1.filter (fun w => w ∈ l2)).length = (l2.filter (fun w => w ∈ l1)).length := by
  have n1 : (l1.filter (fun w => w ∈ l2)).Nodup := h1.filter _
  have n2 : (l2.filter (fun w => w ∈ l1)).Nodup := h2.filter _
  rw [← List.toFinset_card_of_nodup n1, ← List.toFinset_card_of_nodup n2]
  congr 1
  ext x
  simp only [List.mem_toFinset, List.mem_filter, decide_eq_true_eq]
  tauto

theorem union_length_comm (l1 l2 : List (List Char)) (h1 : l1.Nodup) (h2 : l2.Nodup) :
    (l1 ++ l2.filter (fun w => w ∉ l1)).length =
    (l2 ++ l1.filter (fun w => w ∉ l2)).length := by
  have n1 : (l1 ++ l2.filter (fun w => w ∉ l1)).Nodup := by
    refine h1.append (h2.filter _) ?_
    intro x hx hx2
    rcases List.mem_filter.mp hx2 with ⟨-, hnot⟩
    exact absurd hx (by simpa using hnot)
  have n2 : (l2 ++ l1.filter (fun w => w ∉ l2)).Nodup := by
    refine h2.append (h1.filter _) ?_
    intro x hx hx2
    rcases List.mem_filter.mp hx2 with ⟨-, hnot⟩
    exact absurd hx (by simpa using hnot)
  rw [← List.toFinset_card_of_nodup n1, ← List.toFinset_card_of_nodup n2]
  congr 1
  ext x
  simp only [List.mem_toFinset, List.mem_append, List.mem_filter, decide_eq_true_eq]
  tauto

theorem bigWords_nodup (s : List Char) : (bigWords s).Nodup :=
  (List.nodup_dedup _).filter _

/-- The tail of the scorer is symmetric whenever the difflib matched-character
count is the same in both argument orders. -/
theorem simTail_comm (c1 c2 : List Char)
    (hm : difflibMatches c1 c2 = difflibMatches c2 c1) :
    simTail c1 c2 = simTail c2 c1 := by
  have hseq : seqSim c1 c2 = seqSim c2 c1 := by
    rw [seqSim, seqSim, hm, add_comm ((c1.length : ℚ)) ((c2.length : ℚ))]
  rw [simTail, simTail]
  by_cases hcon : (pyIn c1 c2 || pyIn c2 c1) = true
  · rw [if_pos hcon, if_pos (by rwa [Bool.or_comm] at hcon)]
  · rw [if_neg hcon, if_neg (by rw [Bool.or_comm]; exact hcon)]
    dsimp only
    rw [filter_mem_length_comm (bigWords c1) (bigWords c2)
        (bigWords_nodup c1) (bigWords_nodup c2),
      union_length_comm (bigWords c1) (bigWords c2)
        (bigWords_nodup c1) (bigWords_nodup c2),
      hseq,
      if_congr (Iff.intro (fun h => And.intro h.2 h.1) (fun h => And.intro h.2 h.1))
        rfl rfl]

/-- C8 (counterexample): `'baab'` and `'abab'` take the generic path, yet
score 0.3 in one order and 0.2 in the other: difflib's matched-character
count is order-sensitive (3 characters one way, 2 the other). -/
theorem similarity_asymmetric :
    onGenericPath "baab" "abab" = true ∧
    difflibMatches "baab".toList "abab".toList = 3 ∧
    difflibMatches "abab".toList "baab".toList = 2 ∧
    calculate_similarity_score "baab" "abab" = 3/10 ∧
    calculate_similarity_score "abab" "baab" = 1/5 ∧
    ((3 : ℚ)/10 ≠ 1/5) := by
  refine ⟨by decide, by decide, by decide, by with_unfolding_all decide,
    by with_unfolding_all decide, by norm_num⟩

/-- C8 (amended): on the generic path the cleaning, containment check and
Jaccard word overlap are symmetric, and the full score is symmetric whenever
the difflib matched-character count of the two cleaned names agrees in both
orders; it is that sequence-ratio term that breaks symmetry in general. -/
theorem similarity_symm_of_matches_symm (a b : String)
    (hg : onGenericPath a b = true)
    (hm : difflibMatches (genericClean (pyStrip (pyLower a.toList)))
            (genericClean (pyStrip (pyLower b.toList))) =
          difflibMatches (genericClean (pyStrip (pyLower b.toList)))
            (genericClean (pyStrip (pyLower a.toList)))) :
    calculate_similarity_score a b = calculate_similarity_score b a := by
  rw [onGenericPath, Bool.and_eq_true, Bool.not_eq_true', Bool.not_eq_true'] at hg
  obtain ⟨h360, hhh⟩ := hg
  by_cases ha : a = ""
  · rw [calculate_similarity_score, calculate_similarity_score,
      if_pos (Or.inl ha), if_pos (Or.inr ha)]
  by_cases hb : b = ""
  · rw [calculate_similarity_score, calculate_similarity_score,
      if_pos (Or.inr hb), if_pos (Or.inl hb)]
  rw [calculate_similarity_score, calculate_similarity_score,
    if_neg (by simp [ha, hb]), if_neg (by simp [ha, hb]),
    calcSimCore, calcSimCore,
    if_neg (by rw [h360]; exact Bool.false_ne_true),
    if_neg (by rw [hhh]; exact Bool.false_ne_true),
    if_neg (by rw [Bool.or_comm, h360]; exact Bool.false_ne_true),
    if_neg (by rw [Bool.and_comm, hhh]; exact Bool.false_ne_true)]
  exact simTail_comm _ _ hm

/-- Witness for C8's amended theorem at `("abc", "abd")`, whose difflib
match count is 2 in both orders. -/
theorem similarity_symm_of_matches_symm_witness :
    calculate_similarity_score "abc" "abd" = calculate_similarity_score "abd" "abc" :=
  similarity_symm_of_matches_symm "abc" "abd" (by decide) (by decide)
